import Mathlib

/-!
Verification of the PNS bulletin parsing pipeline (snow-plots).

This file gives a shallow embedding, in Lean, of the parsing and archiving
code of `src/modules/2_parser.py` and `src/modules/parse_pns_data.py`, and
proves (or refutes) the frozen specification claims about it.

Modelling conventions:
  * Python strings are Lean `String`s; the character-class predicates
    (`\s`, `\d`, `[A-Z]`, `str.strip`, `str.upper`, `float(...)`) are
    modelled on their ASCII fragment, which is the alphabet of the
    bulletins this program consumes.
  * Python `float` values are modelled exactly: a finite value is the
    exact decimal denoted by the literal, in canonical mantissa/exponent
    form, plus `inf`/`-inf`/`nan` constructors.  `nan = nan` holds
    structurally, which matches the pandas `drop_duplicates` treatment
    of missing values used by the code.
  * Fallible code (`try`/`except`) is modelled with `Option`/`Except`;
    a raised exception that escapes a function is `none`/`.error`.
  * The filesystem used by the archive writer is a function from path
    strings to optional file contents; writing is `Function.update`.
-/

namespace SnowPlots

/-- Python `\s` on ASCII: space, tab, newline, carriage return, vertical
tab, form feed. -/
def pyIsSpace (c : Char) : Bool :=
  c = ' ' || c = '\t' || c = '\n' || c = '\r' || c = '\x0b' || c = '\x0c'

/-- Python `str.strip()` (left part) on a character list. -/
def stripLeftL (cs : List Char) : List Char :=
  cs.dropWhile pyIsSpace

/-- Python `str.strip()` on a character list: drop leading and trailing
whitespace. -/
def stripL (cs : List Char) : List Char :=
  ((cs.dropWhile pyIsSpace).reverse.dropWhile pyIsSpace).reverse

/-- Python `str.strip()` on a `String`. -/
def pyStrip (s : String) : String :=
  ⟨stripL s.data⟩

/-- Python `str.replace(" ", "")`: remove every space character. -/
def removeSpacesL (cs : List Char) : List Char :=
  cs.filter (fun c => c ≠ ' ')

/-- Python `str.upper()` on the ASCII fragment. -/
def pyUpper (s : String) : String :=
  ⟨s.data.map Char.toUpper⟩

/-- Substring test on character lists, i.e. Python `needle in hay`. -/
def containsSub (hay needle : List Char) : Bool :=
  needle.isPrefixOf hay ||
    match hay with
    | [] => false
    | _ :: t => containsSub t needle

/-- Python `hay.startswith(needle)` on character lists. -/
def startsWithL (hay needle : List Char) : Bool :=
  needle.isPrefixOf hay

/-- Substring test lifted to `String`s. -/
def containsStr (hay needle : String) : Bool :=
  containsSub hay.data needle.data

/-- Python `str.isdigit()` on the ASCII fragment: nonempty and all
decimal digits. -/
def pyIsDigitStr (s : String) : Bool :=
  !s.data.isEmpty && s.data.all Char.isDigit

/-- Concatenation of all lines, i.e. Python `"".join(lines)`, as a
character list. -/
def joinAll (lines : List String) : List Char :=
  (lines.map String.data).flatten

/-- Digit-string value (the digits are already known to be `0`-`9`). -/
def digitsToNat (cs : List Char) : Nat :=
  cs.foldl (fun n c => 10 * n + (c.toNat - '0'.toNat)) 0

/-- A Python `float` value, modelled exactly: a finite value is the exact
rational `m * 10 ^ e` of the source decimal literal, kept in canonical
decimal form (`m` not divisible by 10, and `(0, 0)` for zero), so that
structural equality is value equality. -/
inductive PyFloat where
  | finite (m : Int) (e : Int)
  | inf
  | ninf
  | nan
deriving DecidableEq, Repr

/-- Canonicalization worker: strip factors of ten from the mantissa,
shifting them into the exponent; the fuel bounds the digit count. -/
def canonDecGo : Nat → Nat → Int → Nat × Int
  | 0, m, e => (m, e)
  | fuel + 1, m, e =>
    if m ≠ 0 && m % 10 = 0 then canonDecGo fuel (m / 10) (e + 1) else (m, e)

/-- Canonical decimal form of `m * 10 ^ e`. -/
def canonDec (m : Nat) (e : Int) : Nat × Int :=
  if m = 0 then (0, 0) else canonDecGo m m e

/-- Continuation of a decimal-digit run with PEP 515 underscores, in the
state "a digit was just consumed": accept further digits, or an
underscore that sits between two digits. -/
def digitsUGo : List Char → List Char × List Char
  | [] => ([], [])
  | '_' :: d :: t =>
    if d.isDigit then
      match digitsUGo t with
      | (ds, r) => (d :: ds, r)
    else ([], '_' :: d :: t)
  | c :: t =>
    if c.isDigit then
      match digitsUGo t with
      | (ds, r) => (c :: ds, r)
    else ([], c :: t)

/-- One decimal-digit run with PEP 515 underscores: `\d(_?\d)*`.
Returns the digits (underscores removed) and the remaining input, or
`none` when the input does not start with a digit. -/
def takeDigitsU (cs : List Char) : Option (List Char × List Char) :=
  match cs with
  | [] => none
  | c :: t =>
    if c.isDigit then
      match digitsUGo t with
      | (ds, r) => some (c :: ds, r)
    else none

/-- Case-insensitive keyword match (for `inf`, `infinity`, `nan`). -/
def matchKeyword (cs : List Char) (kw : List Char) : Bool :=
  (cs.map Char.toLower) == kw

/-- Parse mantissa-and-exponent of a Python `float` literal after the
optional sign: `(\d+(\.\d*)?|\.\d+)([eE][+-]?\d+)?`, with underscores
allowed inside digit runs.  Returns the canonical decimal pair of the
exact value. -/
def parseFloatBody (cs : List Char) : Option (Nat × Int) :=
  let intFrac : Option (List Char × List Char × List Char) :=
    match takeDigitsU cs with
    | some (ip, rest) =>
      match rest with
      | '.' :: rest2 =>
        match takeDigitsU rest2 with
        | some (fp, rest3) => some (ip, fp, rest3)
        | none => some (ip, [], rest2)
      | _ => some (ip, [], rest)
    | none =>
      match cs with
      | '.' :: rest2 =>
        match takeDigitsU rest2 with
        | some (fp, rest3) => some ([], fp, rest3)
        | none => none
      | _ => none
  match intFrac with
  | none => none
  | some (ip, fp, rest) =>
    let m := digitsToNat (ip ++ fp)
    let e0 : Int := -(fp.length : Int)
    match rest with
    | [] => some (canonDec m e0)
    | e :: rest2 =>
      if e = 'e' || e = 'E' then
        let signed : Bool × List Char :=
          match rest2 with
          | '+' :: r => (false, r)
          | '-' :: r => (true, r)
          | r => (false, r)
        match takeDigitsU signed.2 with
        | some (ds, []) =>
          let ex : Int := digitsToNat ds
          some (canonDec m (e0 + (if signed.1 then -ex else ex)))
        | _ => none
      else none

/-- Python `float(s)` on the ASCII fragment: optional surrounding
whitespace, optional sign, then a decimal literal or one of the keywords
`inf`, `infinity`, `nan` (case-insensitive).  `none` models `ValueError`. -/
def pyFloat (s : String) : Option PyFloat :=
  let cs := stripL s.data
  let (neg, body) :=
    match cs with
    | '+' :: t => (false, t)
    | '-' :: t => (true, t)
    | t => (false, t)
  if matchKeyword body ['i', 'n', 'f'] || matchKeyword body ['i', 'n', 'f', 'i', 'n', 'i', 't', 'y'] then
    some (if neg then PyFloat.ninf else PyFloat.inf)
  else if matchKeyword body ['n', 'a', 'n'] then
    some PyFloat.nan
  else
    match parseFloatBody body with
    | some (m, ex) =>
      some (PyFloat.finite (if neg then -(m : Int) else (m : Int)) ex)
    | none => none

/-- States of the Python `csv` module's row state machine (default
dialect: delimiter `,`, quote `"`, doubled-quote escaping, non-strict). -/
inductive CsvState where
  | startField
  | inField
  | inQuoted
  | quoteInQuoted

/-- One pass of the `csv.reader` state machine over a single line.
`cur` is the current field (reversed), `acc` the finished fields
(reversed). -/
def csvGo : CsvState → List Char → List Char → List (List Char) → List (List Char)
  | _, [], cur, acc => (cur.reverse :: acc).reverse
  | .startField, c :: t, cur, acc =>
    if c = '"' then csvGo .inQuoted t cur acc
    else if c = ',' then csvGo .startField t [] (cur.reverse :: acc)
    else csvGo .inField t (c :: cur) acc
  | .inField, c :: t, cur, acc =>
    if c = ',' then csvGo .startField t [] (cur.reverse :: acc)
    else csvGo .inField t (c :: cur) acc
  | .inQuoted, c :: t, cur, acc =>
    if c = '"' then csvGo .quoteInQuoted t cur acc
    else csvGo .inQuoted t (c :: cur) acc
  | .quoteInQuoted, c :: t, cur, acc =>
    if c = '"' then csvGo .inQuoted t ('"' :: cur) acc
    else if c = ',' then csvGo .startField t [] (cur.reverse :: acc)
    else csvGo .inField t (c :: cur) acc

/-- `next(csv.reader([line]))`: parse one CSV line into its fields.  An
empty line yields the empty row, as in Python. -/
def parseCSVLine (s : String) : List String :=
  if s.data.isEmpty then []
  else (csvGo .startField s.data [] []).map fun cs => (⟨cs⟩ : String)

/-- The row indexing `row[i]` of the extractors (out-of-range yields the
empty string; every use in the code is guarded by the field-count
check). -/
def fieldAt (row : List String) (i : Nat) : String :=
  row.getD i ""

/-- Month-name alternation of `ISSUANCE_PATTERN`, with month numbers, in
the alternation's order. -/
def monthTable : List (String × Nat) :=
  [("Jan", 1), ("Feb", 2), ("Mar", 3), ("Apr", 4), ("May", 5), ("Jun", 6),
   ("Jul", 7), ("Aug", 8), ("Sep", 9), ("Oct", 10), ("Nov", 11), ("Dec", 12)]

/-- Match the month alternation at the head of the input; returns the
month number and the rest. -/
def monthAt (cs : List Char) : Option (Nat × List Char) :=
  (monthTable.find? fun p => p.1.data.isPrefixOf cs).map
    fun p => (p.2, cs.drop 3)

/-- Match `[AP]M` at the head of the input. -/
def ampmAt : List Char → Option (List Char × List Char)
  | a :: 'M' :: r => if a = 'A' || a = 'P' then some ([a, 'M'], r) else none
  | _ => none

/-- Match `\d{k}\s?[AP]M` at the head of the input (one greedy-quantifier
choice of `\d{1,4}`); returns (captured group 1, rest).  For a fixed
start position at most one digit count can succeed, since a failed
shorter choice leaves a digit where `[AP]M` must start. -/
def group1At (cs : List Char) (k : Nat) : Option (List Char × List Char) :=
  let ds := cs.take k
  if ds.length = k && ds.all Char.isDigit then
    let r := cs.drop k
    match r with
    | w :: r2 =>
      if pyIsSpace w then
        match ampmAt r2 with
        | some (am, r3) => some (ds ++ w :: am, r3)
        | none =>
          match ampmAt r with
          | some (am, r3) => some (ds ++ am, r3)
          | none => none
      else
        match ampmAt r with
        | some (am, r3) => some (ds ++ am, r3)
        | none => none
    | [] => none
  else none

/-- Group 1 of `ISSUANCE_PATTERN`: `(\d{1,4}\s?[AP]M)`, greedy digit
count tried longest first. -/
def group1Try (cs : List Char) : Option (List Char × List Char) :=
  group1At cs 4 <|> group1At cs 3 <|> group1At cs 2 <|> group1At cs 1

/-- Match `\d{4}` (the year group) at the head of the input. -/
def yearAt (cs : List Char) : Option (List Char) :=
  let ys := cs.take 4
  if ys.length = 4 && ys.all Char.isDigit then some ys else none

/-- Match `\s+(\d{k})\s+(\d{4})` at the head of the input for one choice
of the day's digit count. -/
def dayYearAt (cs : List Char) (k : Nat) : Option (List Char × List Char) :=
  let ws1 := cs.takeWhile pyIsSpace
  if ws1.isEmpty then none
  else
    let r := cs.dropWhile pyIsSpace
    let ds := r.take k
    if ds.length = k && ds.all Char.isDigit then
      let r2 := r.drop k
      if (r2.takeWhile pyIsSpace).isEmpty then none
      else
        match yearAt (r2.dropWhile pyIsSpace) with
        | some ys => some (ds, ys)
        | none => none
    else none

/-- Match `(Jan|...|Dec)\s+(\d{1,2})\s+(\d{4})` at the head of the
input: month number, day digits, year digits. -/
def tailAt (cs : List Char) : Option (Nat × List Char × List Char) :=
  match monthAt cs with
  | none => none
  | some (m, r) =>
    match dayYearAt r 2 <|> dayYearAt r 1 with
    | some (ds, ys) => some (m, ds, ys)
    | none => none

/-- The lazy `.*?` of `ISSUANCE_PATTERN`: find the earliest offset at
which the month/day/year tail matches. -/
def lazyTail : List Char → Option (Nat × List Char × List Char)
  | [] => none
  | c :: t =>
    match tailAt (c :: t) with
    | some g => some g
    | none => lazyTail t

/-- Match the whole `ISSUANCE_PATTERN` anchored at the head of the
input: `(\d{1,4}\s?[AP]M).*?(Jan|...|Dec)\s+(\d{1,2})\s+(\d{4})`. -/
def issuanceMatchAt (cs : List Char) : Option (List Char × Nat × List Char × List Char) :=
  match group1Try cs with
  | none => none
  | some (g1, r) =>
    match lazyTail r with
    | none => none
    | some (m, ds, ys) => some (g1, m, ds, ys)

/-- `ISSUANCE_PATTERN.search`: leftmost match over all start offsets. -/
def issuanceSearch : List Char → Option (List Char × Nat × List Char × List Char)
  | [] => none
  | c :: t =>
    match issuanceMatchAt (c :: t) with
    | some g => some g
    | none => issuanceSearch t

/-- Gregorian leap-year rule, as used by `datetime`. -/
def isLeap (y : Nat) : Bool :=
  (y % 4 = 0 && y % 100 ≠ 0) || y % 400 = 0

/-- Length of a month, as enforced by `datetime`'s constructor. -/
def daysInMonth (y m : Nat) : Nat :=
  if m = 2 then (if isLeap y then 29 else 28)
  else if m = 4 || m = 6 || m = 9 || m = 11 then 30
  else 31

/-- Validity of `datetime.strptime(f"{month} {day} {year}", "%b %d %Y")`
for a month already fixed by the regex alternation, a 1-2 digit day and
a 4 digit year: the day must denote a real day of that month and the
year must be at least `MINYEAR = 1`. -/
def validBmd (m : Nat) (dayS yearS : List Char) : Bool :=
  let d := digitsToNat dayS
  let y := digitsToNat yearS
  1 ≤ y && 1 ≤ d && d ≤ daysInMonth y m

/-- Zero-padded two-digit rendering, as `strftime`'s `%m`/`%d`. -/
def pad2 (n : Nat) : String :=
  if n < 10 then "0" ++ toString n else toString n

/-- `strftime("%Y-%m-%d")` on Linux CPython: unpadded year, two-digit
month and day. -/
def formatDateISO (y m d : Nat) : String :=
  toString y ++ "-" ++ pad2 m ++ "-" ++ pad2 d

/-- `datetime.strptime(date_str, "%b %d %Y").strftime("%Y-%m-%d")`,
returning `none` where CPython raises. -/
def strptimeBmd (m : Nat) (dayS yearS : List Char) : Option String :=
  if validBmd m dayS yearS then
    some (formatDateISO (digitsToNat yearS) m (digitsToNat dayS))
  else none

namespace ParserV2

/-- The first line of the report on which `ISSUANCE_PATTERN.search`
matches, with its captured groups. -/
def issuanceFirstMatch : List String → Option (List Char × Nat × List Char × List Char)
  | [] => none
  | l :: t =>
    match issuanceSearch l.data with
    | some g => some g
    | none => issuanceFirstMatch t

/-- The normalized time token: `match.group(1).strip().replace(" ", "")`. -/
def timeToken (g1 : List Char) : String :=
  ⟨removeSpacesL (stripL g1)⟩

/-- `extract_issuance_timestamp` of `2_parser.py`: scan the lines for the
issuance pattern; on a match return the ISO date (or `"unknown_date"`
when date parsing raises) and the whitespace-normalized time token; with
no match return the two sentinels. -/
def extract_issuance_timestamp (lines : List String) : String × String :=
  match issuanceFirstMatch lines with
  | none => ("unknown_date", "unknown_time")
  | some (g1, m, ds, ys) =>
    match strptimeBmd m ds ys with
    | some d => (d, timeToken g1)
    | none => ("unknown_date", timeToken g1)

/-- `extract_header_metadata`: all lines before the first line containing
"Public Information Statement", stripped. -/
def extract_header_metadata : List String → List String
  | [] => []
  | l :: t =>
    if containsStr l "Public Information Statement" then []
    else pyStrip l :: extract_header_metadata t

/-- `NOUS_PATTERN = ^(NOUS\d{2}\s[A-Z]{3,4})` matched at the start of a
line; the trailing letter run is greedy, four letters preferred. -/
def nousMatchV2 (cs : List Char) : Option (List Char) :=
  match cs with
  | 'N' :: 'O' :: 'U' :: 'S' :: d1 :: d2 :: w :: rest =>
    if d1.isDigit && d2.isDigit && pyIsSpace w then
      let us := (rest.takeWhile Char.isUpper).take 4
      if 3 ≤ us.length then some (['N', 'O', 'U', 'S', d1, d2, w] ++ us)
      else none
    else none
  | _ => none

/-- Head test for `CTZ\d{3}>\d{3}`. -/
def ctzHeadMatch (cs : List Char) : Bool :=
  match cs with
  | 'C' :: 'T' :: 'Z' :: a :: b :: c :: '>' :: d :: e :: f :: _ =>
    a.isDigit && b.isDigit && c.isDigit && d.isDigit && e.isDigit && f.isDigit
  | _ => false

/-- `CTZ_PATTERN = (CTZ\d{3}>\d{3}.*)` searched in a line: the group runs
from the leftmost `CTZ` zone range to the end of the line. -/
def ctzSearch : List Char → Option (List Char)
  | [] => none
  | c :: t => if ctzHeadMatch (c :: t) then some (c :: t) else ctzSearch t

/-- Head test for `\d{6}`. -/
def sixHead (cs : List Char) : Option (List Char) :=
  let ds := cs.take 6
  if ds.length = 6 && ds.all Char.isDigit then some ds else none

/-- `SIX_DIGIT_PATTERN = (\d{6})` searched in a line: the leftmost run of
six digits. -/
def sixSearch : List Char → Option (List Char)
  | [] => none
  | c :: t =>
    match sixHead (c :: t) with
    | some ds => some ds
    | none => sixSearch t

/-- The `%d` alternation of CPython `_strptime`
(`3[01]|[12]\d|0[1-9]|[1-9]`), applied to the day characters; first
alternative that matches wins.  Returns day value and remaining input. -/
def dayAlt : List Char → Option (Nat × List Char)
  | x :: y :: r =>
    if x = '3' && (y = '0' || y = '1') then some (digitsToNat [x, y], r)
    else if (x = '1' || x = '2') && y.isDigit then some (digitsToNat [x, y], r)
    else if x = '0' && ('1' ≤ y && y ≤ '9') then some (digitsToNat [x, y], r)
    else if '1' ≤ x && x ≤ '9' then some (digitsToNat [x], y :: r)
    else none
  | [x] => if '1' ≤ x && x ≤ '9' then some (digitsToNat [x], []) else none
  | [] => none

/-- `datetime.strptime(s, "%y%m%d").strftime("%Y-%m-%d")` on six digits:
`%y` takes the first two digits (69..99 map to 19xx, otherwise 20xx),
then the `%m` alternation (`1[0-2]|0[1-9]|[1-9]`) and the `%d`
alternation backtrack in regex priority order; the whole string must be
consumed and the day must exist in the month.  `none` models the raised
`ValueError`. -/
def yymmddParse (cs : List Char) : Option String :=
  match cs with
  | [y1, y2, a, b, c, d] =>
    let yy := digitsToNat [y1, y2]
    let year := if yy ≤ 68 then 2000 + yy else 1900 + yy
    let mcands : List (Nat × List Char) :=
      (if a = '1' && ('0' ≤ b && b ≤ '2') then [(digitsToNat [a, b], [c, d])] else []) ++
      (if a = '0' && ('1' ≤ b && b ≤ '9') then [(digitsToNat [a, b], [c, d])] else []) ++
      (if '1' ≤ a && a ≤ '9' then [(digitsToNat [a], [b, c, d])] else [])
    match mcands.findSome? (fun p => (dayAlt p.2).map fun q => (p.1, q.1, q.2)) with
    | some (mv, dv, []) =>
      if 1 ≤ dv && dv ≤ daysInMonth year mv then some (formatDateISO year mv dv)
      else none
    | _ => none
  | _ => none

/-- Bulletin-level metadata of the structured template
(`extract_metadata` of `2_parser.py`). -/
structure Metadata where
  issuance_code : Option String
  region_codes : Option String
  timestamp : Option String
  public_info : Option String
  nws_office : Option String
  nws_time : Option String
deriving DecidableEq, Repr

/-- `re.match(r"\d{3,4}\s[AP]M\s", line)` as a Boolean: anchored at the
line start, greedy digit count. -/
def nwsTimeAt (cs : List Char) (k : Nat) : Bool :=
  let ds := cs.take k
  ds.length = k && ds.all Char.isDigit &&
    (match cs.drop k with
     | w :: a :: 'M' :: w2 :: _ => pyIsSpace w && (a = 'A' || a = 'P') && pyIsSpace w2
     | _ => false)

/-- The `nws_time` line pattern of `extract_metadata`. -/
def nwsTimeMatchV2 (cs : List Char) : Bool :=
  nwsTimeAt cs 4 || nwsTimeAt cs 3

/-- One iteration of `extract_metadata`'s scan loop: later matching lines
overwrite earlier ones. -/
def metaStep (lines : List String) (md : Metadata) (p : Nat × String) : Metadata :=
  let md1 :=
    if containsStr p.2 "Public Information Statement" then
      { md with public_info := some (pyStrip p.2) }
    else md
  let md2 :=
    if containsStr p.2 "National Weather Service" then
      { md1 with nws_office :=
          if p.1 + 1 < lines.length then some (pyStrip (lines.getD (p.1 + 1) ""))
          else none }
    else md1
  if nwsTimeMatchV2 p.2.data then { md2 with nws_time := some (pyStrip p.2) } else md2

/-- The first-line stage of `extract_metadata` of `2_parser.py`:
issuance code, region codes and the six-digit timestamp (whose date
parse is guarded by `try`) are extracted from `lines[0]` only. -/
def metaFirstLine (lines : List String) : Metadata :=
  match lines with
  | [] => ⟨none, none, none, none, none, none⟩
  | l0 :: _ =>
    { issuance_code := (nousMatchV2 l0.data).map (fun g => (⟨g⟩ : String))
      region_codes := (ctzSearch l0.data).map (fun g => (⟨g⟩ : String))
      timestamp := (sixSearch l0.data).bind yymmddParse
      public_info := none
      nws_office := none
      nws_time := none }

/-- `extract_metadata` of `2_parser.py`: first-line patterns, then a scan
for title, office and time lines. -/
def extract_metadata (lines : List String) : Metadata :=
  lines.enum.foldl (metaStep lines) (metaFirstLine lines)

end ParserV2

/-- One observation row of the structured CSV-like format (shared row
shape of the two extractor modules). -/
structure Observation where
  date : String
  time : String
  state : String
  county : String
  city : String
  latitude : Option PyFloat
  longitude : Option PyFloat
  type : String
  value : Option PyFloat
  unit : String
  source : String
  description : String
deriving DecidableEq, Repr

/-- `float(row[i]) if row[i] else None`: empty text maps to null, and a
float-parse failure (raised `ValueError`) makes the enclosing row fail. -/
def optFloatField (s : String) : Option (Option PyFloat) :=
  if s = "" then some none else (pyFloat s).map some

namespace ParserV2

/-- The per-line body of `extract_observations` of `2_parser.py`: strip,
CSV-parse, require at least 14 fields, and build the observation; `none`
is a skipped line. -/
def parseObsLine (line : String) : Option Observation :=
  let row := parseCSVLine (pyStrip line)
  if row.length < 14 then none
  else
    match optFloatField (fieldAt row 7), optFloatField (fieldAt row 8),
          optFloatField (fieldAt row 10) with
    | some lat, some lon, some val =>
      some
        { date := fieldAt row 0
          time := fieldAt row 1
          state := fieldAt row 2
          county := fieldAt row 3
          city := fieldAt row 4
          latitude := lat
          longitude := lon
          type := if fieldAt row 9 = "" then "UNKNOWN" else pyUpper (pyStrip (fieldAt row 9))
          value := val
          unit := if fieldAt row 11 = "" then "UNKNOWN" else fieldAt row 11
          source := if fieldAt row 12 = "" then "UNKNOWN" else fieldAt row 12
          description := if 13 < row.length then fieldAt row 13 else "UNKNOWN" }
    | _, _, _ => none

/-- `extract_observations` of `2_parser.py`: every line is a candidate
row; failing lines are skipped and the rest are kept in order. -/
def extract_observations (lines : List String) : List Observation :=
  lines.filterMap parseObsLine

/-- Bulletin-level metadata of the alternative template
(`extract_alternative_metadata`). -/
structure AltMetadata where
  issuance_code : Option String
  nws_office : Option String
  nws_time : Option String
  product : Option String
deriving DecidableEq, Repr

/-- The office/time part of `extract_alternative_metadata`: at the first
line starting with "National Weather Service", take that line, skip
blank lines, and take the next non-blank line if any. -/
def altNwsSearch (lines : List String) : Option (String × Option String) :=
  match lines.findIdx? (fun l => startsWithL l.data "National Weather Service".data) with
  | none => none
  | some i =>
    some (pyStrip (lines.getD i ""),
      (((lines.drop (i + 1)).dropWhile (fun l => pyStrip l = "")).head?).map pyStrip)

/-- `extract_alternative_metadata` of `2_parser.py`. -/
def extract_alternative_metadata (lines : List String) : AltMetadata :=
  let ic := (lines.find? (fun l => startsWithL l.data "NOUS".data)).map pyStrip
  let prod :=
    match lines.findIdx? (fun l => startsWithL l.data "NOUS".data) with
    | some idx =>
      if idx + 1 < lines.length then some (pyStrip (lines.getD (idx + 1) ""))
      else none
    | none => none
  match altNwsSearch lines with
  | some (off, nt) =>
    { issuance_code := ic, nws_office := some off, nws_time := nt, product := prod }
  | none =>
    { issuance_code := ic, nws_office := none, nws_time := none, product := prod }

/-- An accepted row of the alternative table: a Python dict from header
tokens to column tokens (insertion ordered, later duplicate keys update
in place). -/
def AltRow := List (String × String)
deriving DecidableEq, Repr

/-- Python dict insertion: an existing key is updated in place, a new key
is appended. -/
def pyDictIns (acc : List (String × String)) (kv : String × String) : List (String × String) :=
  if acc.any (fun p => p.1 = kv.1) then
    acc.map (fun p => if p.1 = kv.1 then (p.1, kv.2) else p)
  else acc ++ [kv]

/-- `dict(pairs)` for a pair list. -/
def pyDict (ps : List (String × String)) : AltRow :=
  ps.foldl pyDictIns []

/-- Worker for `re.split(r'\s{2,}', s)`: `cur` is the current token
(reversed), `pend` the pending whitespace run (reversed); a maximal run
of two or more whitespace characters separates tokens, a single
whitespace character stays inside its token. -/
def reSplit2Go : List Char → List Char → List Char → List (List Char)
  | [], cur, pend =>
    if 2 ≤ pend.length then [cur.reverse, []] else [(pend ++ cur).reverse]
  | c :: t, cur, pend =>
    if pyIsSpace c then reSplit2Go t cur (c :: pend)
    else if 2 ≤ pend.length then cur.reverse :: reSplit2Go t [c] []
    else reSplit2Go t (c :: (pend ++ cur)) []

/-- `re.split(r'\s{2,}', s)`. -/
def reSplit2 (s : String) : List String :=
  (reSplit2Go s.data [] []).map (fun cs => (⟨cs⟩ : String))

/-- The header search of `extract_alternative_observations`: first line
containing "Location" and either "Temp" or "Amount", with its index. -/
def findObsHeaderAux : Nat → List String → Option (String × Nat)
  | _, [] => none
  | i, l :: t =>
    if containsStr l "Location" && (containsStr l "Temp" || containsStr l "Amount") then
      some (pyStrip l, i)
    else findObsHeaderAux (i + 1) t

/-- The table-header line of the alternative format, stripped, with its
line index. -/
def findObsHeader (lines : List String) : Option (String × Nat) :=
  findObsHeaderAux 0 lines

/-- The scan loop of `extract_alternative_observations` over the lines
after the header: strip, skip county separators and blanks, tokenize and
accept exactly the rows whose token count matches the header's. -/
def altLoop (headers : List String) : List String → List AltRow
  | [] => []
  | l :: t =>
    let s := pyStrip l
    if startsWithL s.data "...".data && containsStr s "County" then altLoop headers t
    else if s = "" then altLoop headers t
    else
      let cols := reSplit2 s
      if cols.length = headers.length then pyDict (headers.zip cols) :: altLoop headers t
      else altLoop headers t

/-- `extract_alternative_observations` of `2_parser.py`. -/
def extract_alternative_observations (lines : List String) : List AltRow :=
  match findObsHeader lines with
  | none => []
  | some (hl, hi) =>
    if hl = "" then []
    else altLoop (reSplit2 hl) (lines.drop (hi + 1))

/-- The metadata component of a parse result (the two templates produce
different shapes). -/
inductive MetaOut where
  | structured (m : Metadata)
  | alternative (m : AltMetadata)
deriving DecidableEq, Repr

/-- The observations component of a parse result. -/
inductive ObsOut where
  | structured (l : List Observation)
  | alternative (l : List AltRow)
deriving DecidableEq, Repr

/-- The dictionary returned by a parsing template. -/
structure ParseResult where
  metadata : MetaOut
  observations : ObsOut
  header_metadata : List String
  issuance_date : String
  issuance_time : String
deriving DecidableEq, Repr

/-- `parse_template_structured`: requires the `**METADATA` marker in the
concatenated text and a successfully parsed issuance date. -/
def parse_template_structured (lines : List String) : Option ParseResult :=
  if !containsSub (joinAll lines) "**METADATA".data then none
  else
    let dt := extract_issuance_timestamp lines
    let md := extract_metadata lines
    let obs := extract_observations lines
    let hm := extract_header_metadata lines
    if dt.1 = "unknown_date" then none
    else some ⟨.structured md, .structured obs, hm, dt.1, dt.2⟩

/-- `parse_template_alternative`: requires the marker to be absent and a
successfully parsed issuance date. -/
def parse_template_alternative (lines : List String) : Option ParseResult :=
  if containsSub (joinAll lines) "**METADATA".data then none
  else
    let dt := extract_issuance_timestamp lines
    let md := extract_alternative_metadata lines
    let obs := extract_alternative_observations lines
    let hm := extract_header_metadata lines
    if dt.1 = "unknown_date" then none
    else some ⟨.alternative md, .alternative obs, hm, dt.1, dt.2⟩

/-- `apply_parsing_templates`: first successful template wins. -/
def apply_parsing_templates (lines : List String) : Option ParseResult :=
  match parse_template_structured lines with
  | some r => some r
  | none => parse_template_alternative lines

/-- Contents of one archived artifact file. -/
inductive FileContent where
  | metaFile (m : MetaOut)
  | obsFile (o : ObsOut)
  | headerFile (h : List String)
deriving DecidableEq, Repr

/-- The archive filesystem: path strings to optional file contents. -/
def Archive := String → Option FileContent

/-- The `{date}_{time}.csv` filename suffix. -/
def keyPart (d t : String) : String := d ++ "_" ++ t ++ ".csv"

/-- The `data/{station}/` directory prefix. -/
def stationDir (st : String) : String := "data/" ++ st ++ "/"

/-- Path of `metadata_{date}_{time}.csv`. -/
def pathMeta (st d t : String) : String := stationDir st ++ ("metadata_" ++ keyPart d t)

/-- Path of `observations_{date}_{time}.csv`. -/
def pathObs (st d t : String) : String := stationDir st ++ ("observations_" ++ keyPart d t)

/-- Path of `header_metadata_{date}_{time}.csv`. -/
def pathHeader (st d t : String) : String := stationDir st ++ ("header_metadata_" ++ keyPart d t)

/-- `save_output_files` of `2_parser.py`, over the archive state: skip
when all three artifacts exist; otherwise write metadata and
observations, and the header file only when the header metadata is
nonempty.  Also returns the list of paths written. -/
def save_output_files (st : String) (md : MetaOut) (obs : ObsOut) (hm : List String)
    (d t : String) (a : Archive) : Archive × List String :=
  let pm := pathMeta st d t
  let po := pathObs st d t
  let ph := pathHeader st d t
  if (a pm).isSome && (a po).isSome && (a ph).isSome then (a, [])
  else
    let a1 := Function.update a pm (some (.metaFile md))
    let a2 := Function.update a1 po (some (.obsFile obs))
    if hm.isEmpty then (a2, [pm, po])
    else (Function.update a2 ph (some (.headerFile hm)), [pm, po, ph])

/-- `process_station` of `2_parser.py`, with the bulletin text already
read: parse, skip when the three artifacts for the extracted key exist,
otherwise save. -/
def process_station (st : String) (lines : List String) (a : Archive) : Archive × List String :=
  match apply_parsing_templates lines with
  | none => (a, [])
  | some r =>
    let pm := pathMeta st r.issuance_date r.issuance_time
    let po := pathObs st r.issuance_date r.issuance_time
    let ph := pathHeader st r.issuance_date r.issuance_time
    if (a pm).isSome && (a po).isSome && (a ph).isSome then (a, [])
    else save_output_files st r.metadata r.observations r.header_metadata
      r.issuance_date r.issuance_time a

end ParserV2

/-- Keep-first deduplication worker: `seen` collects the values already
emitted. -/
def dedupFirstAux [DecidableEq α] : List α → List α → List α
  | _, [] => []
  | seen, x :: t =>
    if x ∈ seen then dedupFirstAux seen t
    else x :: dedupFirstAux (x :: seen) t

/-- Keep-first deduplication, the semantics of
`pd.DataFrame(rows).drop_duplicates()` (default `keep="first"`, missing
values compared equal). -/
def dedupFirst [DecidableEq α] (l : List α) : List α :=
  dedupFirstAux [] l

namespace ParsePnsData

/-- The metadata dictionary of `parse_pns_data.extract_metadata`; the
fields with no assigning pattern in the code stay `none`. -/
structure PnsMetadata where
  issuance_code : Option String
  event_type : Option String
  region_codes : Option String
  timestamp : Option String
  state : Option String
  county : Option String
  city : Option String
  report : Option String
  public_info : Option String
  nws_office : Option String
  nws_time : Option String
  latitude : Option String
  longitude : Option String
deriving DecidableEq, Repr

/-- `^(NOUS\d{2}\s[A-Z]{4})` of `parse_pns_data.py` (exactly four
letters). -/
def nousMatchPns (cs : List Char) : Option (List Char) :=
  match cs with
  | 'N' :: 'O' :: 'U' :: 'S' :: d1 :: d2 :: w :: u1 :: u2 :: u3 :: u4 :: _ =>
    if d1.isDigit && d2.isDigit && pyIsSpace w &&
        u1.isUpper && u2.isUpper && u3.isUpper && u4.isUpper then
      some ['N', 'O', 'U', 'S', d1, d2, w, u1, u2, u3, u4]
    else none
  | _ => none

/-- Head test for `CTZ\d{3}>\d{3}-NJZ\d{3}>\d{3}`; returns the 21
matched characters. -/
def ctzNjzHead (cs : List Char) : Option (List Char) :=
  match cs with
  | 'C' :: 'T' :: 'Z' :: a :: b :: c :: '>' :: d :: e :: f :: '-' ::
      'N' :: 'J' :: 'Z' :: g :: h :: i :: '>' :: j :: k :: l :: _ =>
    if [a, b, c, d, e, f, g, h, i, j, k, l].all Char.isDigit then
      some ['C', 'T', 'Z', a, b, c, '>', d, e, f, '-', 'N', 'J', 'Z', g, h, i, '>', j, k, l]
    else none
  | _ => none

/-- `re.search` of the `CTZ...NJZ...` region pattern: leftmost match. -/
def ctzNjzSearch : List Char → Option (List Char)
  | [] => none
  | c :: t =>
    match ctzNjzHead (c :: t) with
    | some g => some g
    | none => ctzNjzSearch t

/-- Tail of the `nws_time` pattern of `parse_pns_data.py` after the
leading digits: `\s[AP]M\s[A-Za-z]{3}\s[A-Za-z]{3}\s\d{2}\s\d{4}`. -/
def pnsTimeRest : List Char → Bool
  | w1 :: a :: 'M' :: w2 :: x1 :: x2 :: x3 :: w3 :: y1 :: y2 :: y3 :: w4 ::
      d1 :: d2 :: w5 :: z1 :: z2 :: z3 :: z4 :: _ =>
    pyIsSpace w1 && (a = 'A' || a = 'P') && pyIsSpace w2 &&
    [x1, x2, x3].all Char.isAlpha && pyIsSpace w3 &&
    [y1, y2, y3].all Char.isAlpha && pyIsSpace w4 &&
    d1.isDigit && d2.isDigit && pyIsSpace w5 &&
    [z1, z2, z3, z4].all Char.isDigit
  | _ => false

/-- One greedy digit-count choice of the `nws_time` pattern. -/
def pnsTimeAt (cs : List Char) (k : Nat) : Bool :=
  let ds := cs.take k
  ds.length = k && ds.all Char.isDigit && pnsTimeRest (cs.drop k)

/-- `re.match(r"\d{3,4}\s[AP]M\s[A-Za-z]{3}\s[A-Za-z]{3}\s\d{2}\s\d{4}", line)`. -/
def pnsTimeMatch (cs : List Char) : Bool :=
  pnsTimeAt cs 4 || pnsTimeAt cs 3

/-- One iteration of `parse_pns_data.extract_metadata`'s scan loop.
`none` models the unguarded `lines[i + 1]` raising `IndexError` when the
office line is the last line. -/
def pnsMetaStep (lines : List String) (md : PnsMetadata) (p : Nat × String) :
    Option PnsMetadata :=
  let md1 :=
    if containsStr p.2 "Public Information Statement" then
      { md with public_info := some (pyStrip p.2) }
    else md
  let md2? :=
    if containsStr p.2 "National Weather Service" then
      if p.1 + 1 < lines.length then
        some { md1 with nws_office := some (pyStrip (lines.getD (p.1 + 1) "")) }
      else none
    else some md1
  match md2? with
  | none => none
  | some md2 =>
    let md3 :=
      if pnsTimeMatch p.2.data then { md2 with nws_time := some (pyStrip p.2) } else md2
    some (if pyIsDigitStr (pyStrip p.2) then { md3 with report := some (pyStrip p.2) } else md3)

/-- `extract_metadata` of `parse_pns_data.py`.  `none` models a raised
exception escaping to the caller: `lines[0]` on an empty list, the
unguarded `strptime` on an invalid six-digit code, and the unguarded
`lines[i + 1]` lookup. -/
def extract_metadata (lines : List String) : Option PnsMetadata :=
  match lines with
  | [] => none
  | l0 :: _ =>
    let md0 : PnsMetadata :=
      ⟨none, none, none, none, none, none, none, none, none, none, none, none, none⟩
    let a :=
      match nousMatchPns l0.data with
      | some g => { md0 with issuance_code := some (⟨g⟩ : String) }
      | none => md0
    let b :=
      match ctzNjzSearch l0.data with
      | some g => { a with region_codes := some (⟨g⟩ : String) }
      | none => a
    let c? :=
      match ParserV2.sixSearch l0.data with
      | some ds =>
        (ParserV2.yymmddParse ds).map (fun ts => { b with timestamp := some ts })
      | none => some b
    match c? with
    | none => none
    | some c => lines.enum.foldlM (pnsMetaStep lines) c

/-- The per-line row parse of `parse_pns_data.extract_observations`:
as in `2_parser.py` but the `type` field is taken verbatim (no
strip/uppercase). -/
def pnsObsLine (line : String) : Option Observation :=
  let row := parseCSVLine (pyStrip line)
  if row.length < 14 then none
  else
    match optFloatField (fieldAt row 7), optFloatField (fieldAt row 8),
          optFloatField (fieldAt row 10) with
    | some lat, some lon, some val =>
      some
        { date := fieldAt row 0
          time := fieldAt row 1
          state := fieldAt row 2
          county := fieldAt row 3
          city := fieldAt row 4
          latitude := lat
          longitude := lon
          type := if fieldAt row 9 = "" then "UNKNOWN" else fieldAt row 9
          value := val
          unit := if fieldAt row 11 = "" then "UNKNOWN" else fieldAt row 11
          source := if fieldAt row 12 = "" then "UNKNOWN" else fieldAt row 12
          description := if 13 < row.length then fieldAt row 13 else "UNKNOWN" }
    | _, _, _ => none

/-- The scan of `parse_pns_data.extract_observations`: rows are read only
after a line containing `**METADATA**`; blank and failing lines are
skipped. -/
def pnsGo : Bool → List String → List Observation
  | _, [] => []
  | flag, l :: t =>
    if containsStr l "**METADATA**" then pnsGo true t
    else if flag then
      if pyStrip l = "" then pnsGo flag t
      else
        match pnsObsLine l with
        | some o => o :: pnsGo flag t
        | none => pnsGo flag t
    else pnsGo flag t

/-- The raw (pre-deduplication) observation list of
`parse_pns_data.extract_observations`. -/
def rawObservations (text : List String) : List Observation :=
  pnsGo false text

/-- `extract_observations` of `parse_pns_data.py`: collect rows after the
marker, then `drop_duplicates` keeping first occurrences. -/
def extract_observations (text : List String) : List Observation :=
  dedupFirst (rawObservations text)

end ParsePnsData

/-! ### Example inputs and claim-side definitions -/

/-- The empty archive: no artifact exists. -/
def emptyArchive : ParserV2.Archive := fun _ => none

/-- A structured bulletin whose header metadata is empty (its first line
already contains "Public Information Statement"). -/
def exNoHeaderLines : List String :=
  ["Public Information Statement **METADATA", "831 AM EST Mon Feb 3 2025"]

/-- A structured bulletin with nonempty header metadata. -/
def exHeaderLines : List String :=
  ["NOUS41 KOKX **METADATA", "Public Information Statement",
   "831 AM EST Mon Feb 3 2025"]

/-- The end-to-end scenario line of the specification (leading colon
already stripped). -/
def scenarioLine : String :=
  "1/19/2025,1000 PM, CT, Fairfield, Stamford, , , 41.02, -73.56, SNOW_24, 2, Inch, Public, 24 hour snowfall"

/-- The observation the specification's end-to-end scenario expects. -/
def scenarioClaimObs : Observation :=
  { date := "1/19/2025", time := "1000 PM", state := "CT", county := "Fairfield"
    city := "Stamford", latitude := some (.finite 4102 (-2))
    longitude := some (.finite (-7356) (-2)), type := "SNOW_24"
    value := some (.finite 2 0), unit := "Inch", source := "Public"
    description := "24 hour snowfall" }

/-- The observation the code actually produces for the scenario line:
the CSV fields after a `", "` separator keep their leading space (only
the `type` field is stripped). -/
def scenarioActualObs : Observation :=
  { date := "1/19/2025", time := "1000 PM", state := " CT", county := " Fairfield"
    city := " Stamford", latitude := some (.finite 4102 (-2))
    longitude := some (.finite (-7356) (-2)), type := "SNOW_24"
    value := some (.finite 2 0), unit := " Inch", source := " Public"
    description := " 24 hour snowfall" }

/-- A valid 14-field row (used to exhibit duplicates). -/
def dupLine : String := "a,b,c,d,e,f,g,1,2,t,3,u,s,d"

/-- A valid 14-field row whose description field (index 13) is the empty
string. -/
def emptyDescLine : String := "a,b,c,d,e,f,g,1,2, snow ,3,,,"

/-- A malformed row with only 10 fields. -/
def tenFieldLine : String := "a,b,c,d,e,f,g,h,i,j"

/-- The alternative-format scenario of the specification: header, one
matching data row, one two-token row. -/
def altScenarioLines : List String :=
  ["Location          Temp        Amount",
   "Stamford, CT       32F         3.5 in",
   "Hartford, CT        4F"]

/-- The row the alternative-format scenario expects. -/
def altScenarioRow : ParserV2.AltRow :=
  [("Location", "Stamford, CT"), ("Temp", "32F"), ("Amount", "3.5 in")]

/-- The claim-side acceptance rule for one line after the alternative
table header: a non-blank, non-county-separator line, tokenized on runs
of two or more whitespace characters, is returned (as a positional dict
keyed by the header tokens) exactly when its token count equals the
header's token count. -/
def claimRow (headers : List String) (l : String) : Option ParserV2.AltRow :=
  let s := pyStrip l
  if startsWithL s.data "...".data && containsStr s "County" then none
  else if s = "" then none
  else if (ParserV2.reSplit2 s).length = headers.length then
    some (ParserV2.pyDict (headers.zip (ParserV2.reSplit2 s)))
  else none

/-! ### Theorems -/

/-- Claim C2, counterexample: a bulletin with the `**METADATA` marker but
no parsable issuance timestamp is NOT "still processed and archived under
the sentinel key": `apply_parsing_templates` fails (returns `None`) and
`process_station` writes no artifact at all, contrary to the claim. -/
theorem c2_counterexample :
    ParserV2.apply_parsing_templates ["**METADATA"] = none ∧
    (ParserV2.process_station "OKX" ["**METADATA"] emptyArchive).2 = [] := by
  constructor
  · decide
  · decide

/-- Claim C2, amended: whenever the issuance date degrades to the
sentinel `"unknown_date"` (no matching line, or an invalid calendar
date), both parsing templates reject the bulletin, the dispatcher
returns `None`, and `process_station` leaves the archive untouched and
writes nothing; the bulletin is not archived under the sentinel key. -/
theorem c2_sentinel_rejected (lines : List String) (st : String) (a : ParserV2.Archive)
    (h : (ParserV2.extract_issuance_timestamp lines).1 = "unknown_date") :
    ParserV2.apply_parsing_templates lines = none ∧
    ParserV2.process_station st lines a = (a, []) := by
  have hs : ParserV2.parse_template_structured lines = none := by
    unfold ParserV2.parse_template_structured
    by_cases hm : containsSub (joinAll lines) "**METADATA".data
    · simp [hm, h]
    · simp [hm]
  have ha : ParserV2.parse_template_alternative lines = none := by
    unfold ParserV2.parse_template_alternative
    by_cases hm : containsSub (joinAll lines) "**METADATA".data
    · simp [hm]
    · simp [hm, h]
  have hap : ParserV2.apply_parsing_templates lines = none := by
    unfold ParserV2.apply_parsing_templates
    rw [hs, ha]
  refine ⟨hap, ?_⟩
  unfold ParserV2.process_station
  rw [hap]

/-- Witness for C2's amended theorem at a concrete unparsable bulletin. -/
theorem c2_sentinel_rejected_witness :
    (ParserV2.extract_issuance_timestamp ["**METADATA"]).1 = "unknown_date" ∧
    (ParserV2.apply_parsing_templates ["**METADATA"] = none ∧
      ParserV2.process_station "OKX" ["**METADATA"] emptyArchive = (emptyArchive, [])) :=
  ⟨by decide, c2_sentinel_rejected ["**METADATA"] "OKX" emptyArchive (by decide)⟩

/-- Claim C10: the two templates are mutually exclusive - the structured
template returns `None` without the `**METADATA` substring, the
alternative template returns `None` with it, at most one of them
succeeds, and the dispatcher returns exactly the one successful
template's result (never a merge or union of both). -/
theorem c10_templates_exclusive (lines : List String) :
    (¬ containsSub (joinAll lines) "**METADATA".data →
      ParserV2.parse_template_structured lines = none) ∧
    (containsSub (joinAll lines) "**METADATA".data →
      ParserV2.parse_template_alternative lines = none) ∧
    ¬ ((ParserV2.parse_template_structured lines).isSome ∧
        (ParserV2.parse_template_alternative lines).isSome) ∧
    (∀ r, ParserV2.apply_parsing_templates lines = some r →
      (ParserV2.parse_template_structured lines = some r ∧
        ParserV2.parse_template_alternative lines = none) ∨
      (ParserV2.parse_template_alternative lines = some r ∧
        ParserV2.parse_template_structured lines = none)) := by
  by_cases hm : containsSub (joinAll lines) "**METADATA".data
  · have ha : ParserV2.parse_template_alternative lines = none := by
      unfold ParserV2.parse_template_alternative
      simp [hm]
    refine ⟨fun hn => absurd hm hn, fun _ => ha, ?_, ?_⟩
    · rintro ⟨-, habs⟩
      rw [ha] at habs
      simp at habs
    · intro r hr
      unfold ParserV2.apply_parsing_templates at hr
      cases hs : ParserV2.parse_template_structured lines with
      | some s =>
        simp only [hs, Option.some.injEq] at hr
        exact Or.inl ⟨by rw [hr], ha⟩
      | none =>
        simp only [hs, ha] at hr
        exact absurd hr (by simp)
  · have hs : ParserV2.parse_template_structured lines = none := by
      unfold ParserV2.parse_template_structured
      simp [hm]
    refine ⟨fun _ => hs, fun hyes => absurd hyes hm, ?_, ?_⟩
    · rintro ⟨habs, -⟩
      rw [hs] at habs
      simp at habs
    · intro r hr
      unfold ParserV2.apply_parsing_templates at hr
      rw [hs] at hr
      exact Or.inr ⟨hr, hs⟩

/-- Witness for C10 at concrete bulletins on both sides of the marker
test. -/
theorem c10_templates_exclusive_witness :
    ParserV2.parse_template_alternative exHeaderLines = none ∧
    ParserV2.parse_template_structured altScenarioLines = none :=
  ⟨(c10_templates_exclusive exHeaderLines).2.1 (by decide),
   (c10_templates_exclusive altScenarioLines).1 (by decide)⟩

/-- Claim C3, counterexample: the end-to-end scenario line does NOT parse
to the observation the specification expects - the extractor keeps the
leading space of every field that follows a `", "` separator (state,
county, city, unit, source, description), so the result differs from the
claimed observation. -/
theorem c3_counterexample :
    ParserV2.extract_observations [scenarioLine] ≠ [scenarioClaimObs] := by
  decide

/-- Claim C3, amended: the scenario line parses to exactly one
observation, equal to the claimed one except that the string fields keep
their leading space from the source text (`" CT"`, `" Fairfield"`,
`" Stamford"`, `" Inch"`, `" Public"`, `" 24 hour snowfall"`); only the
`type` field is stripped (and uppercased), and the numeric fields parse
as claimed. -/
theorem c3_scenario_amended :
    ParserV2.extract_observations [scenarioLine] = [scenarioActualObs] := by
  decide

/-- Claim C5, counterexample: in a row accepted by the structured
extractor whose description field (index 13) is the empty string, the
description is NOT defaulted to `"UNKNOWN"`: the code guards only on the
field count (which the 14-field acceptance threshold always satisfies),
so the empty string is kept verbatim. -/
theorem c5_counterexample :
    (ParserV2.extract_observations [emptyDescLine]).map Observation.description = [""] ∧
    ("" : String) ≠ "UNKNOWN" := by
  constructor
  · decide
  · decide

/-- Claim C5, amended: for every row accepted by the structured
extractor, `unit` (index 11) and `source` (index 12) are `"UNKNOWN"`
exactly when the source field is empty, and otherwise the field's text;
but `description` is always the verbatim text of field 13 - never
defaulted, because an accepted row has at least 14 fields, so index 13
always exists (and an empty field stays empty). -/
theorem c5_defaults_amended (line : String) (o : Observation)
    (h : ParserV2.parseObsLine line = some o) :
    (o.unit = if fieldAt (parseCSVLine (pyStrip line)) 11 = "" then "UNKNOWN"
      else fieldAt (parseCSVLine (pyStrip line)) 11) ∧
    (o.source = if fieldAt (parseCSVLine (pyStrip line)) 12 = "" then "UNKNOWN"
      else fieldAt (parseCSVLine (pyStrip line)) 12) ∧
    o.description = fieldAt (parseCSVLine (pyStrip line)) 13 := by
  simp only [ParserV2.parseObsLine] at h
  by_cases hl : (parseCSVLine (pyStrip line)).length < 14
  · rw [if_pos hl] at h
    exact absurd h (by simp)
  · rw [if_neg hl] at h
    have h13 : 13 < (parseCSVLine (pyStrip line)).length := by omega
    split at h
    · injection h with h
      subst h
      exact ⟨rfl, rfl, by simp [h13]⟩
    · exact absurd h (by simp)

/-- Witness for C5's amended theorem at the scenario line. -/
theorem c5_defaults_amended_witness :
    ParserV2.parseObsLine scenarioLine = some scenarioActualObs ∧
    ((scenarioActualObs.unit =
        if fieldAt (parseCSVLine (pyStrip scenarioLine)) 11 = "" then "UNKNOWN"
        else fieldAt (parseCSVLine (pyStrip scenarioLine)) 11) ∧
      (scenarioActualObs.source =
        if fieldAt (parseCSVLine (pyStrip scenarioLine)) 12 = "" then "UNKNOWN"
        else fieldAt (parseCSVLine (pyStrip scenarioLine)) 12) ∧
      scenarioActualObs.description = fieldAt (parseCSVLine (pyStrip scenarioLine)) 13) :=
  ⟨by decide, c5_defaults_amended scenarioLine scenarioActualObs (by decide)⟩

/-- Claim C8: a malformed row - fewer than 14 CSV fields, or non-numeric
content in a float column (latitude, longitude or value) - is skipped
row-locally: the extraction of all other lines is unchanged, and in the
embedding the extractor is a total function, so no exception reaches the
caller. -/
theorem c8_row_local_failure (pre post : List String) (bad : String)
    (h : (parseCSVLine (pyStrip bad)).length < 14 ∨
      optFloatField (fieldAt (parseCSVLine (pyStrip bad)) 7) = none ∨
      optFloatField (fieldAt (parseCSVLine (pyStrip bad)) 8) = none ∨
      optFloatField (fieldAt (parseCSVLine (pyStrip bad)) 10) = none) :
    ParserV2.extract_observations (pre ++ bad :: post) =
      ParserV2.extract_observations pre ++ ParserV2.extract_observations post := by
  have hb : ParserV2.parseObsLine bad = none := by
    simp only [ParserV2.parseObsLine]
    by_cases hl : (parseCSVLine (pyStrip bad)).length < 14
    · simp [hl]
    · rcases h with h | h | h | h
      · exact absurd h hl
      · simp [hl, h]
      · cases o7 : optFloatField (fieldAt (parseCSVLine (pyStrip bad)) 7) <;>
          simp [hl, h, o7]
      · cases o7 : optFloatField (fieldAt (parseCSVLine (pyStrip bad)) 7) <;>
          cases o8 : optFloatField (fieldAt (parseCSVLine (pyStrip bad)) 8) <;>
            simp [hl, h, o7, o8]
  unfold ParserV2.extract_observations
  rw [List.filterMap_append]
  congr 1
  exact List.filterMap_cons_none hb

/-- Witness for C8: a 10-field row spliced between two valid rows is the
only row dropped. -/
theorem c8_row_local_failure_witness :
    ((parseCSVLine (pyStrip tenFieldLine)).length < 14 ∨
      optFloatField (fieldAt (parseCSVLine (pyStrip tenFieldLine)) 7) = none ∨
      optFloatField (fieldAt (parseCSVLine (pyStrip tenFieldLine)) 8) = none ∨
      optFloatField (fieldAt (parseCSVLine (pyStrip tenFieldLine)) 10) = none) ∧
    ParserV2.extract_observations ([scenarioLine] ++ tenFieldLine :: [dupLine]) =
      ParserV2.extract_observations [scenarioLine] ++ ParserV2.extract_observations [dupLine] :=
  ⟨Or.inl (by decide),
   c8_row_local_failure [scenarioLine] [dupLine] tenFieldLine (Or.inl (by decide))⟩

/-- If no line matches the issuance pattern, the line scan finds
nothing. -/
theorem issuanceFirstMatch_none (lines : List String)
    (h : ∀ l ∈ lines, issuanceSearch l.data = none) :
    ParserV2.issuanceFirstMatch lines = none := by
  induction lines with
  | nil => rfl
  | cons l t ih =>
    unfold ParserV2.issuanceFirstMatch
    rw [h l (by simp)]
    exact ih fun x hx => h x (by simp [hx])

/-- The line scan returns the first matching line's groups. -/
theorem issuanceFirstMatch_append (pre post : List String) (l : String)
    (g : List Char × Nat × List Char × List Char)
    (hpre : ∀ p ∈ pre, issuanceSearch p.data = none)
    (hl : issuanceSearch l.data = some g) :
    ParserV2.issuanceFirstMatch (pre ++ l :: post) = some g := by
  induction pre with
  | nil =>
    simp only [List.nil_append]
    unfold ParserV2.issuanceFirstMatch
    rw [hl]
  | cons p t ih =>
    simp only [List.cons_append]
    unfold ParserV2.issuanceFirstMatch
    rw [hpre p (by simp)]
    exact ih fun x hx => hpre x (by simp [hx])

/-- Claim C7: the timestamp extractor is total (the embedding is a plain
function, modelling "never raises"); when no line matches the issuance
pattern it returns exactly the sentinel pair, and when the first
matching line carries a date `strptime` rejects, it returns
`"unknown_date"` paired with the raw time token normalized by
`strip().replace(" ", "")`. -/
theorem c7_timestamp_fallback (lines : List String) :
    ((∀ l ∈ lines, issuanceSearch l.data = none) →
      ParserV2.extract_issuance_timestamp lines = ("unknown_date", "unknown_time")) ∧
    (∀ pre l post g1 m ds ys,
      lines = pre ++ l :: post →
      (∀ p ∈ pre, issuanceSearch p.data = none) →
      issuanceSearch l.data = some (g1, m, ds, ys) →
      strptimeBmd m ds ys = none →
      ParserV2.extract_issuance_timestamp lines =
        ("unknown_date", ParserV2.timeToken g1)) := by
  constructor
  · intro h
    unfold ParserV2.extract_issuance_timestamp
    rw [issuanceFirstMatch_none lines h]
  · intro pre l post g1 m ds ys hsplit hpre hl hbad
    subst hsplit
    unfold ParserV2.extract_issuance_timestamp
    rw [issuanceFirstMatch_append pre post l _ hpre hl]
    simp only [hbad]

/-- Witness for C7: a line with no issuance pattern, and a first matching
line carrying the invalid date `Feb 30 2025`. -/
theorem c7_timestamp_fallback_witness :
    ParserV2.extract_issuance_timestamp ["no timestamp here"] =
      ("unknown_date", "unknown_time") ∧
    ParserV2.extract_issuance_timestamp ["831 AM EST Mon Feb 30 2025"] =
      ("unknown_date", "831AM") := by
  constructor
  · exact (c7_timestamp_fallback ["no timestamp here"]).1 (by decide)
  · have h := (c7_timestamp_fallback ["831 AM EST Mon Feb 30 2025"]).2
      [] "831 AM EST Mon Feb 30 2025" [] ['8', '3', '1', ' ', 'A', 'M'] 2
      ['3', '0'] ['2', '0', '2', '5'] rfl (by simp) (by decide) (by decide)
    exact h.trans (by decide)

/-- The scan loop of the alternative extractor is the `filterMap` of the
claim-side acceptance rule. -/
theorem altLoop_eq_filterMap (headers : List String) (ls : List String) :
    ParserV2.altLoop headers ls = ls.filterMap (claimRow headers) := by
  induction ls with
  | nil => rfl
  | cons l t ih =>
    by_cases h1 : startsWithL (pyStrip l).data "...".data && containsStr (pyStrip l) "County"
    · simp [ParserV2.altLoop, claimRow, h1, ih, List.filterMap_cons]
    · by_cases h2 : pyStrip l = ""
      · simp [ParserV2.altLoop, claimRow, h1, h2, ih, List.filterMap_cons]
      · by_cases h3 : (ParserV2.reSplit2 (pyStrip l)).length = headers.length
        · simp [ParserV2.altLoop, claimRow, h1, h2, h3, ih, List.filterMap_cons]
        · simp [ParserV2.altLoop, claimRow, h1, h2, h3, ih, List.filterMap_cons]

/-- Claim C6: once the first header line (containing "Location" and
"Temp" or "Amount") is found, each later line is accepted if and only if
its two-or-more-whitespace token count equals the header's, yielding the
positional dict; and the concrete scenario produces exactly the
three-key row while the two-token line is skipped. -/
theorem c6_alternative_rows :
    (∀ (lines : List String) (hl : String) (hi : Nat),
      ParserV2.findObsHeader lines = some (hl, hi) → hl ≠ "" →
      ParserV2.extract_alternative_observations lines =
        (lines.drop (hi + 1)).filterMap (claimRow (ParserV2.reSplit2 hl))) ∧
    ParserV2.extract_alternative_observations altScenarioLines = [altScenarioRow] := by
  constructor
  · intro lines hl hi hfind hne
    unfold ParserV2.extract_alternative_observations
    rw [hfind]
    simp only [if_neg hne]
    exact altLoop_eq_filterMap _ _
  · decide

/-- Witness for C6 at the scenario bulletin. -/
theorem c6_alternative_rows_witness :
    ParserV2.findObsHeader altScenarioLines =
      some ("Location          Temp        Amount", 0) ∧
    ParserV2.extract_alternative_observations altScenarioLines =
      (altScenarioLines.drop 1).filterMap
        (claimRow (ParserV2.reSplit2 "Location          Temp        Amount")) :=
  ⟨by decide,
   (c6_alternative_rows).1 altScenarioLines "Location          Temp        Amount" 0
     (by decide) (by decide)⟩

/-- The scan step never touches the first-line fields. -/
theorem metaStep_head_fields (lines : List String) (md : ParserV2.Metadata)
    (p : Nat × String) :
    (ParserV2.metaStep lines md p).issuance_code = md.issuance_code ∧
    (ParserV2.metaStep lines md p).region_codes = md.region_codes ∧
    (ParserV2.metaStep lines md p).timestamp = md.timestamp := by
  unfold ParserV2.metaStep
  split_ifs <;> exact ⟨rfl, rfl, rfl⟩

/-- A scan step over a line without the title substring keeps
`public_info`. -/
theorem metaStep_public_info (lines : List String) (md : ParserV2.Metadata)
    (p : Nat × String) (h : ¬ containsStr p.2 "Public Information Statement") :
    (ParserV2.metaStep lines md p).public_info = md.public_info := by
  unfold ParserV2.metaStep
  split_ifs <;> rfl

/-- A scan step over a line without the office substring keeps
`nws_office`. -/
theorem metaStep_nws_office (lines : List String) (md : ParserV2.Metadata)
    (p : Nat × String) (h : ¬ containsStr p.2 "National Weather Service") :
    (ParserV2.metaStep lines md p).nws_office = md.nws_office := by
  unfold ParserV2.metaStep
  split_ifs <;> rfl

/-- A scan step over a line not matching the time pattern keeps
`nws_time`. -/
theorem metaStep_nws_time (lines : List String) (md : ParserV2.Metadata)
    (p : Nat × String) (h : ¬ ParserV2.nwsTimeMatchV2 p.2.data) :
    (ParserV2.metaStep lines md p).nws_time = md.nws_time := by
  unfold ParserV2.metaStep
  split_ifs <;> rfl

/-- The scan fold preserves the first-line fields. -/
theorem foldl_metaStep_head_fields (lines : List String)
    (ps : List (Nat × String)) (md : ParserV2.Metadata) :
    (ps.foldl (ParserV2.metaStep lines) md).issuance_code = md.issuance_code ∧
    (ps.foldl (ParserV2.metaStep lines) md).region_codes = md.region_codes ∧
    (ps.foldl (ParserV2.metaStep lines) md).timestamp = md.timestamp := by
  induction ps generalizing md with
  | nil => exact ⟨rfl, rfl, rfl⟩
  | cons p t ih =>
    simp only [List.foldl_cons]
    obtain ⟨a, b, c⟩ := ih (ParserV2.metaStep lines md p)
    obtain ⟨a2, b2, c2⟩ := metaStep_head_fields lines md p
    exact ⟨a.trans a2, b.trans b2, c.trans c2⟩

/-- The scan fold keeps `public_info` when no scanned line contains the
title substring. -/
theorem foldl_metaStep_public_info (lines : List String)
    (ps : List (Nat × String)) (md : ParserV2.Metadata)
    (h : ∀ p ∈ ps, ¬ containsStr p.2 "Public Information Statement") :
    (ps.foldl (ParserV2.metaStep lines) md).public_info = md.public_info := by
  induction ps generalizing md with
  | nil => rfl
  | cons p t ih =>
    simp only [List.foldl_cons]
    exact (ih _ fun x hx => h x (by simp [hx])).trans
      (metaStep_public_info lines md p (h p (by simp)))

/-- The scan fold keeps `nws_office` when no scanned line contains the
office substring. -/
theorem foldl_metaStep_nws_office (lines : List String)
    (ps : List (Nat × String)) (md : ParserV2.Metadata)
    (h : ∀ p ∈ ps, ¬ containsStr p.2 "National Weather Service") :
    (ps.foldl (ParserV2.metaStep lines) md).nws_office = md.nws_office := by
  induction ps generalizing md with
  | nil => rfl
  | cons p t ih =>
    simp only [List.foldl_cons]
    exact (ih _ fun x hx => h x (by simp [hx])).trans
      (metaStep_nws_office lines md p (h p (by simp)))

/-- The scan fold keeps `nws_time` when no scanned line matches the time
pattern. -/
theorem foldl_metaStep_nws_time (lines : List String)
    (ps : List (Nat × String)) (md : ParserV2.Metadata)
    (h : ∀ p ∈ ps, ¬ ParserV2.nwsTimeMatchV2 p.2.data) :
    (ps.foldl (ParserV2.metaStep lines) md).nws_time = md.nws_time := by
  induction ps generalizing md with
  | nil => rfl
  | cons p t ih =>
    simp only [List.foldl_cons]
    exact (ih _ fun x hx => h x (by simp [hx])).trans
      (metaStep_nws_time lines md p (h p (by simp)))

/-- The first-line stage never sets the scan-loop fields. -/
theorem metaFirstLine_loop_fields (lines : List String) :
    (ParserV2.metaFirstLine lines).public_info = none ∧
    (ParserV2.metaFirstLine lines).nws_office = none ∧
    (ParserV2.metaFirstLine lines).nws_time = none := by
  cases lines <;> exact ⟨rfl, rfl, rfl⟩

/-- A line of the enumerated list is a line of the list. -/
theorem snd_mem_of_mem_enum {l : List String} {p : Nat × String}
    (h : p ∈ l.enum) : p.2 ∈ l := by
  have := List.enum_map_snd l
  rw [← this]
  exact List.mem_map_of_mem Prod.snd h

/-- Without a NOUS match on the first line, the first-line stage leaves
the issuance code null. -/
theorem metaFirstLine_issuance_none (l0 : String) (t : List String)
    (hn : ParserV2.nousMatchV2 l0.data = none) :
    (ParserV2.metaFirstLine (l0 :: t)).issuance_code = none := by
  simp [ParserV2.metaFirstLine, hn]

/-- Without a CTZ match on the first line, the first-line stage leaves
the region codes null. -/
theorem metaFirstLine_region_none (l0 : String) (t : List String)
    (hc : ParserV2.ctzSearch l0.data = none) :
    (ParserV2.metaFirstLine (l0 :: t)).region_codes = none := by
  simp [ParserV2.metaFirstLine, hc]

/-- Without a six-digit run on the first line, the first-line stage
leaves the timestamp null. -/
theorem metaFirstLine_timestamp_none (l0 : String) (t : List String)
    (hs : ParserV2.sixSearch l0.data = none) :
    (ParserV2.metaFirstLine (l0 :: t)).timestamp = none := by
  simp [ParserV2.metaFirstLine, hs]

/-- Claim C9, counterexample: the metadata extractor of
`parse_pns_data.py` does NOT terminate without raising on every input:
it raises `IndexError` on the empty line list (`lines[0]`), and also
when the office trigger line "National Weather Service" is the last line
(unguarded `lines[i + 1]`); in the embedding a raised exception is
`none`. -/
theorem c9_counterexample :
    ParsePnsData.extract_metadata [] = none ∧
    ParsePnsData.extract_metadata ["National Weather Service"] = none := by
  constructor
  · decide
  · decide

/-- Claim C9, amended: the claim holds of the extractor in `2_parser.py`
- a total function whose every field degrades independently to null when
its pattern matches nowhere (shown per field, including the empty input)
- but not of the one in `parse_pns_data.py`, which can raise. -/
theorem c9_metadata_amended (lines : List String) :
    ParserV2.extract_metadata [] = ⟨none, none, none, none, none, none⟩ ∧
    ((∀ l ∈ lines, ¬ containsStr l "Public Information Statement") →
      (ParserV2.extract_metadata lines).public_info = none) ∧
    ((∀ l ∈ lines, ¬ containsStr l "National Weather Service") →
      (ParserV2.extract_metadata lines).nws_office = none) ∧
    ((∀ l ∈ lines, ¬ ParserV2.nwsTimeMatchV2 l.data) →
      (ParserV2.extract_metadata lines).nws_time = none) ∧
    (∀ l0, lines.head? = some l0 → ParserV2.nousMatchV2 l0.data = none →
      (ParserV2.extract_metadata lines).issuance_code = none) ∧
    (∀ l0, lines.head? = some l0 → ParserV2.ctzSearch l0.data = none →
      (ParserV2.extract_metadata lines).region_codes = none) ∧
    (∀ l0, lines.head? = some l0 → ParserV2.sixSearch l0.data = none →
      (ParserV2.extract_metadata lines).timestamp = none) := by
  refine ⟨rfl, ?_, ?_, ?_, ?_, ?_, ?_⟩
  · intro h
    unfold ParserV2.extract_metadata
    rw [foldl_metaStep_public_info lines lines.enum _
      (fun p hp => h p.2 (snd_mem_of_mem_enum hp))]
    exact (metaFirstLine_loop_fields lines).1
  · intro h
    unfold ParserV2.extract_metadata
    rw [foldl_metaStep_nws_office lines lines.enum _
      (fun p hp => h p.2 (snd_mem_of_mem_enum hp))]
    exact (metaFirstLine_loop_fields lines).2.1
  · intro h
    unfold ParserV2.extract_metadata
    rw [foldl_metaStep_nws_time lines lines.enum _
      (fun p hp => h p.2 (snd_mem_of_mem_enum hp))]
    exact (metaFirstLine_loop_fields lines).2.2
  · intro l0 h0 hn
    unfold ParserV2.extract_metadata
    rw [(foldl_metaStep_head_fields lines lines.enum _).1]
    cases lines with
    | nil => simp at h0
    | cons a t =>
      obtain rfl : a = l0 := by simpa using h0
      exact metaFirstLine_issuance_none a t hn
  · intro l0 h0 hc
    unfold ParserV2.extract_metadata
    rw [(foldl_metaStep_head_fields lines lines.enum _).2.1]
    cases lines with
    | nil => simp at h0
    | cons a t =>
      obtain rfl : a = l0 := by simpa using h0
      exact metaFirstLine_region_none a t hc
  · intro l0 h0 hs
    unfold ParserV2.extract_metadata
    rw [(foldl_metaStep_head_fields lines lines.enum _).2.2]
    cases lines with
    | nil => simp at h0
    | cons a t =>
      obtain rfl : a = l0 := by simpa using h0
      exact metaFirstLine_timestamp_none a t hs

/-- Witness for C9's amended theorem: a one-line bulletin matching no
pattern leaves every field null. -/
theorem c9_metadata_amended_witness :
    (ParserV2.extract_metadata ["x"]).public_info = none ∧
    (ParserV2.extract_metadata ["x"]).nws_office = none ∧
    (ParserV2.extract_metadata ["x"]).nws_time = none ∧
    (ParserV2.extract_metadata ["x"]).issuance_code = none ∧
    (ParserV2.extract_metadata ["x"]).region_codes = none ∧
    (ParserV2.extract_metadata ["x"]).timestamp = none :=
  ⟨(c9_metadata_amended ["x"]).2.1 (by decide),
   (c9_metadata_amended ["x"]).2.2.1 (by decide),
   (c9_metadata_amended ["x"]).2.2.2.1 (by decide),
   (c9_metadata_amended ["x"]).2.2.2.2.1 "x" rfl (by decide),
   (c9_metadata_amended ["x"]).2.2.2.2.2.1 "x" rfl (by decide),
   (c9_metadata_amended ["x"]).2.2.2.2.2.2 "x" rfl (by decide)⟩

/-- Appending one element on the right: `dedup` (which keeps last
occurrences) keeps that element and drops its earlier copies. -/
theorem dedup_append_singleton [DecidableEq α] (A : List α) (x : α) :
    (A ++ [x]).dedup = (A.filter (fun y => y != x)).dedup ++ [x] := by
  induction A with
  | nil => simp
  | cons a A ih =>
    rw [List.cons_append]
    by_cases hax : a = x
    · subst hax
      rw [List.dedup_cons_of_mem (show a ∈ A ++ [a] by simp), ih,
        show (a :: A).filter (fun y => y != a) = A.filter (fun y => y != a) from by
          simp [List.filter_cons]]
    · have hfc : (a :: A).filter (fun y => y != x) = a :: A.filter (fun y => y != x) := by
        simp [List.filter_cons, hax]
      by_cases hmem : a ∈ A
      · rw [List.dedup_cons_of_mem (show a ∈ A ++ [x] by simp [hmem]), ih, hfc,
          List.dedup_cons_of_mem (show a ∈ A.filter (fun y => y != x) by
            simp [List.mem_filter, hmem, hax])]
      · rw [List.dedup_cons_of_not_mem (show a ∉ A ++ [x] by simp [hmem, hax]), ih, hfc,
          List.dedup_cons_of_not_mem (show a ∉ A.filter (fun y => y != x) by
            simp [List.mem_filter, hmem]), List.cons_append]

/-- The keep-first worker in terms of Mathlib's keep-last `dedup`:
deduplicate the reverse and reverse back, after dropping what was
already seen. -/
theorem dedupFirstAux_eq [DecidableEq α] (l : List α) (seen : List α) :
    dedupFirstAux seen l =
      ((l.filter (fun x => decide (x ∉ seen))).reverse.dedup).reverse := by
  induction l generalizing seen with
  | nil => rfl
  | cons x t ih =>
    have hstep : dedupFirstAux seen (x :: t) =
        if x ∈ seen then dedupFirstAux seen t else x :: dedupFirstAux (x :: seen) t := rfl
    by_cases hx : x ∈ seen
    · rw [hstep, if_pos hx, ih seen,
        show (x :: t).filter (fun y => decide (y ∉ seen)) =
            t.filter (fun y => decide (y ∉ seen)) from by
          simp [List.filter_cons, hx]]
    · have hfil : t.filter (fun y => decide (y ∉ x :: seen)) =
          (t.filter (fun y => decide (y ∉ seen))).filter (fun y => y != x) := by
        rw [List.filter_filter]
        apply List.filter_congr
        intro y _
        by_cases h1 : y = x <;> by_cases h2 : y ∈ seen <;> simp [h1, h2]
      rw [hstep, if_neg hx, ih (x :: seen),
        show (x :: t).filter (fun y => decide (y ∉ seen)) =
            x :: t.filter (fun y => decide (y ∉ seen)) from by
          simp [List.filter_cons, hx],
        List.reverse_cons, dedup_append_singleton, List.filter_reverse, ← hfil]
      simp

/-- `dedupFirst` is reverse-`dedup`-reverse: it keeps exactly the first
occurrence of every value, in first-seen order. -/
theorem dedupFirst_eq_reverse_dedup [DecidableEq α] (l : List α) :
    dedupFirst l = (l.reverse.dedup).reverse := by
  unfold dedupFirst
  rw [dedupFirstAux_eq]
  congr 2
  simp

/-- `dedupFirst` has as many elements as there are distinct values. -/
theorem dedupFirst_length [DecidableEq α] (l : List α) :
    (dedupFirst l).length = l.dedup.length := by
  rw [dedupFirst_eq_reverse_dedup, List.length_reverse]
  have h1 : l.reverse.dedup.length = l.reverse.toFinset.card := rfl
  have h2 : l.dedup.length = l.toFinset.card := rfl
  rw [h1, h2, List.toFinset_reverse]

/-- Claim C4, counterexample: the structured extractor of `2_parser.py`
(cited by the claim) does NOT collapse exact duplicates: two identical
accepted rows come back as two observations, while the number of
distinct field-tuples is one. -/
theorem c4_counterexample :
    (ParserV2.extract_observations [dupLine, dupLine]).length = 2 ∧
    ((ParserV2.extract_observations [dupLine, dupLine]).dedup).length = 1 := by
  constructor
  · decide
  · decide

/-- Claim C4, amended: the deduplication belongs to the extractor of
`parse_pns_data.py` only: its output is the keep-first deduplication of
the accepted rows (characterized independently as
reverse-`dedup`-reverse, so first occurrences survive in first-seen
order) and its length is the number of distinct observation tuples among
the accepted rows; the near-identical extractor of `2_parser.py` returns
duplicates uncollapsed. -/
theorem c4_dedup_amended (text : List String) :
    ParsePnsData.extract_observations text =
      (((ParsePnsData.rawObservations text).reverse.dedup).reverse) ∧
    (ParsePnsData.extract_observations text).length =
      ((ParsePnsData.rawObservations text).dedup).length := by
  constructor
  · exact dedupFirst_eq_reverse_dedup _
  · exact dedupFirst_length _

/-- The three artifact paths of one station/timestamp key are pairwise
distinct (their table-name segments have different lengths). -/
theorem pathsDistinct (st d t : String) :
    ParserV2.pathMeta st d t ≠ ParserV2.pathObs st d t ∧
    ParserV2.pathMeta st d t ≠ ParserV2.pathHeader st d t ∧
    ParserV2.pathObs st d t ≠ ParserV2.pathHeader st d t := by
  refine ⟨?_, ?_, ?_⟩ <;>
    · intro he
      have hl := congrArg String.length he
      simp only [ParserV2.pathMeta, ParserV2.pathObs, ParserV2.pathHeader,
        String.length_append] at hl
      simp only [show ("metadata_" : String).length = 9 from rfl,
        show ("observations_" : String).length = 13 from rfl,
        show ("header_metadata_" : String).length = 16 from rfl] at hl
      omega

/-- Claim C1, counterexample: re-running the pipeline is NOT free of
writes for every bulletin whose first run wrote artifacts.  For a
bulletin whose header metadata is empty, the first run writes only the
metadata and observations files; the second run finds the header file
missing, so the existence check fails and it writes (overwrites) the two
files again. -/
theorem c1_counterexample :
    (ParserV2.process_station "OKX" exNoHeaderLines emptyArchive).2 ≠ [] ∧
    (ParserV2.process_station "OKX" exNoHeaderLines
      (ParserV2.process_station "OKX" exNoHeaderLines emptyArchive).1).2 ≠ [] := by
  constructor
  · decide
  · decide

/-- Claim C1, amended: the second run always leaves the archive contents
identical (the rewrite, when it happens, stores the same deterministic
contents at the same paths); and the second run performs no write at all
whenever the first run wrote all three artifacts (in particular whenever
the bulletin's header metadata is nonempty).  Only the header-metadata
file can be missing and trigger a rewrite. -/
theorem c1_second_run_amended (st : String) (lines : List String)
    (a0 : ParserV2.Archive) :
    (ParserV2.process_station st lines (ParserV2.process_station st lines a0).1).1 =
      (ParserV2.process_station st lines a0).1 ∧
    (3 ≤ (ParserV2.process_station st lines a0).2.length →
      (ParserV2.process_station st lines (ParserV2.process_station st lines a0).1).2 = []) := by
  cases hr : ParserV2.apply_parsing_templates lines with
  | none => simp [ParserV2.process_station, hr]
  | some r =>
    obtain ⟨hmo, hmh, hoh⟩ := pathsDistinct st r.issuance_date r.issuance_time
    set pm := ParserV2.pathMeta st r.issuance_date r.issuance_time with hpm
    set po := ParserV2.pathObs st r.issuance_date r.issuance_time with hpo
    set ph := ParserV2.pathHeader st r.issuance_date r.issuance_time with hph
    set vm : Option ParserV2.FileContent := some (.metaFile r.metadata) with hvm
    set vo : Option ParserV2.FileContent := some (.obsFile r.observations) with hvo
    set vh : Option ParserV2.FileContent := some (.headerFile r.header_metadata) with hvh
    by_cases e1 : ((a0 pm).isSome && (a0 po).isSome && (a0 ph).isSome) = true
    · have hP1 : ParserV2.process_station st lines a0 = (a0, []) := by
        simp [ParserV2.process_station, hr, e1]
      have h1 : (ParserV2.process_station st lines a0).1 = a0 := by rw [hP1]
      refine ⟨?_, ?_⟩
      · rw [h1, hP1]
      · intro habs
        rw [hP1] at habs
        simp at habs
    · by_cases hhm : r.header_metadata.isEmpty
      · have hP1 : ParserV2.process_station st lines a0 =
            (Function.update (Function.update a0 pm vm) po vo, [pm, po]) := by
          simp [ParserV2.process_station, ParserV2.save_output_files, hr, e1, hhm,
            hvm, hvo]
        set a2 := Function.update (Function.update a0 pm vm) po vo with ha2
        have hlpm : a2 pm = vm := by
          rw [ha2, Function.update_noteq hmo, Function.update_same]
        have hlpo : a2 po = vo := by
          rw [ha2, Function.update_same]
        have hlph : a2 ph = a0 ph := by
          rw [ha2, Function.update_noteq hoh.symm, Function.update_noteq hmh.symm]
        have h1 : (ParserV2.process_station st lines a0).1 = a2 := by rw [hP1]
        by_cases e2 : (a0 ph).isSome = true
        · have hcond : ((a2 pm).isSome && (a2 po).isSome && (a2 ph).isSome) = true := by
            rw [hlpm, hlpo, hlph]
            simp [hvm, hvo, e2]
          have hP2 : ParserV2.process_station st lines a2 = (a2, []) := by
            simp [ParserV2.process_station, hr, hcond]
          refine ⟨?_, ?_⟩
          · rw [h1, hP2]
          · intro habs
            rw [hP1] at habs
            simp at habs
        · have hcond : ¬(((a2 pm).isSome && (a2 po).isSome && (a2 ph).isSome) = true) := by
            rw [hlpm, hlpo, hlph]
            simp [e2]
          have hP2 : ParserV2.process_station st lines a2 =
              (Function.update (Function.update a2 pm vm) po vo, [pm, po]) := by
            simp [ParserV2.process_station, ParserV2.save_output_files, hr, hcond, hhm,
              hvm, hvo]
          have hA : Function.update (Function.update a2 pm vm) po vo = a2 := by
            rw [ha2]
            rw [Function.update_comm hmo.symm (f := Function.update a0 pm vm)]
            rw [Function.update_idem, Function.update_idem]
          refine ⟨?_, ?_⟩
          · rw [h1, hP2]
            exact hA
          · intro habs
            rw [hP1] at habs
            simp at habs
      · have hP1 : ParserV2.process_station st lines a0 =
            (Function.update (Function.update (Function.update a0 pm vm) po vo) ph vh,
              [pm, po, ph]) := by
          simp [ParserV2.process_station, ParserV2.save_output_files, hr, e1, hhm,
            hvm, hvo, hvh]
        set A := Function.update (Function.update (Function.update a0 pm vm) po vo) ph vh
          with hA
        have hlpm : A pm = vm := by
          rw [hA, Function.update_noteq hmh, Function.update_noteq hmo,
            Function.update_same]
        have hlpo : A po = vo := by
          rw [hA, Function.update_noteq hoh, Function.update_same]
        have hlph : A ph = vh := by
          rw [hA, Function.update_same]
        have hcond : ((A pm).isSome && (A po).isSome && (A ph).isSome) = true := by
          rw [hlpm, hlpo, hlph]
          simp [hvm, hvo, hvh]
        have hP2 : ParserV2.process_station st lines A = (A, []) := by
          simp [ParserV2.process_station, hr, hcond]
        have h1 : (ParserV2.process_station st lines a0).1 = A := by rw [hP1]
        refine ⟨?_, ?_⟩
        · rw [h1, hP2]
        · intro _
          rw [h1, hP2]

/-- Witness for C1's amended theorem: a bulletin with nonempty header
metadata writes all three artifacts on the first run, and the second run
performs no write. -/
theorem c1_second_run_amended_witness :
    (ParserV2.process_station "OKX" exHeaderLines
      (ParserV2.process_station "OKX" exHeaderLines emptyArchive).1).2 = [] :=
  (c1_second_run_amended "OKX" exHeaderLines emptyArchive).2 (by decide)

end SnowPlots
